import Mathlib

set_option autoImplicit false

/-!
Verification of the synthesis staging subsystem (session store, synthesis
session, manifest assembly) and of the `StringListParameter` construct of
this repository.

The session store / synthesis session implementation is not present in the
excerpted sources (only its test suite, `test/test.synthesis.ts`, and its
callers are), so those components are modelled from the specification; the
`StringListParameter` constructor is translated directly from its source.
-/

/-- A JSON document value: strings, integers, arrays and objects with an
ordered field list (insertion order is significant for the wire format). -/
inductive JValue where
  | str : String → JValue
  | num : Int → JValue
  | arr : List JValue → JValue
  | obj : List (String × JValue) → JValue

/-- Escape one character for a JSON string literal. -/
def escapeJsonChar (c : Char) : String :=
  if c = '\"' then "\\\"" else if c = '\\' then "\\\\" else String.singleton c

/-- Escape a string for inclusion in a JSON document. -/
def escapeJsonString (s : String) : String :=
  String.join (s.toList.map escapeJsonChar)

mutual

/-- Encode a `JValue` as JSON text (UTF-8, no whitespace). -/
def encodeJson : JValue → String
  | .str s => "\"" ++ escapeJsonString s ++ "\""
  | .num n => toString n
  | .arr xs => "[" ++ encodeJsonList xs ++ "]"
  | .obj fs => "\x7b" ++ encodeJsonFields fs ++ "\x7d"

/-- Encode the comma-separated elements of a JSON array. -/
def encodeJsonList : List JValue → String
  | [] => ""
  | [x] => encodeJson x
  | x :: y :: xs => encodeJson x ++ "," ++ encodeJsonList (y :: xs)

/-- Encode the comma-separated fields of a JSON object. -/
def encodeJsonFields : List (String × JValue) → String
  | [] => ""
  | [(k, v)] => "\"" ++ escapeJsonString k ++ "\":" ++ encodeJson v
  | (k, v) :: f :: fs =>
      "\"" ++ escapeJsonString k ++ "\":" ++ encodeJson v ++ "," ++ encodeJsonFields (f :: fs)

end

/-- Errors raised by session-store operations. -/
inductive StoreError where
  | AlreadyExists
  | Locked
  | NotFound
  | InvalidPath
deriving DecidableEq

/-- Modelled from the spec: the Session Store state (§3) — the missing
`FileSystemStore`/`InMemoryStore` implementation. `root` path, a `locked`
boolean (initially false), and the set of relative paths already
materialized, split into written files (with their bytes, in write order)
and created single-level directories. -/
structure SessionStore where
  root : String
  files : List (String × String)
  dirs : List String
  locked : Bool
deriving DecidableEq

/-- A store freshly bound to an existing root directory: nothing
materialized, unlocked. -/
def freshStore (root : String) : SessionStore :=
  { root := root, files := [], dirs := [], locked := false }

/-- Split a character list into path segments at the `/` separators
(`acc` holds the characters of the current segment, reversed). -/
def pathSegsAux : List Char → List Char → List String
  | [], acc => [String.mk acc.reverse]
  | c :: cs, acc =>
      if c = '/' then String.mk acc.reverse :: pathSegsAux cs []
      else pathSegsAux cs (c :: acc)

/-- The `/`-separated segments of a path. -/
def pathSegs (p : String) : List String :=
  pathSegsAux p.toList []

/-- Modelled from the spec: relative keys are validated to resolve strictly
inside `root`; empty and absolute paths and traversal segments are
rejected (§4.1, §4.2). -/
def validPath (p : String) : Bool :=
  match p.toList with
  | [] => false
  | c :: _ => !(c = '/') && !((pathSegs p).contains "..")

namespace SessionStore

/-- Modelled from the spec: `exists(relPath)` — true iff the path was
previously written, as a file or a directory (§4.1). -/
def pathExists (st : SessionStore) (p : String) : Bool :=
  st.files.any (fun f => f.1 == p) || st.dirs.contains p

/-- Modelled from the spec: the shared precondition of the mutating
operations — the path must resolve inside the root (`InvalidPath`), must
not already be materialized (`AlreadyExists`), and the store must not be
locked (`Locked`) (§4.1). -/
def canWrite (st : SessionStore) (p : String) : Except StoreError Unit :=
  if !validPath p then .error .InvalidPath
  else if st.pathExists p then .error .AlreadyExists
  else if st.locked then .error .Locked
  else .ok ()

/-- Modelled from the spec: `writeFile(relPath, bytes)` — persists the
bytes and marks the path materialized when `canWrite` allows it (§4.1). -/
def writeFile (st : SessionStore) (p : String) (bytes : String) :
    Except StoreError SessionStore :=
  match st.canWrite p with
  | .error e => .error e
  | .ok _ => .ok { st with files := st.files ++ [(p, bytes)] }

/-- Modelled from the spec: `readFile(relPath)` — the bytes previously
written to the path, `NotFound` if the path was never written (§4.1). -/
def readFile (st : SessionStore) (p : String) : Except StoreError String :=
  match st.files.find? (fun f => f.1 == p) with
  | some f => .ok f.2
  | none => .error .NotFound

/-- Modelled from the spec: `mkdir(relPath)` — creates a single path
segment under the root and returns its absolute path (§4.1). -/
def mkdir (st : SessionStore) (p : String) :
    Except StoreError (String × SessionStore) :=
  match st.canWrite p with
  | .error e => .error e
  | .ok _ => .ok (st.root ++ "/" ++ p, { st with dirs := st.dirs ++ [p] })

/-- Modelled from the spec: `list()` — immediate children of the root,
lexicographically sorted, directories and files intermixed by name (§4.1). -/
def listChildren (st : SessionStore) : List String :=
  (st.files.map Prod.fst ++ st.dirs).mergeSort (fun a b => a ≤ b)

/-- Modelled from the spec: `lock()` — transitions the store to locked;
idempotent, raising no error (§4.1). -/
def lock (st : SessionStore) : SessionStore :=
  { st with locked := true }

end SessionStore

/-- The well-known manifest path (`cxapi.MANIFEST_FILE` in the tests). -/
def MANIFEST_FILE : String := "manifest.json"

/-- The well-known build-steps path (`build.json` in the tests). -/
def BUILD_FILE : String := "build.json"

/-- The manifest schema version (`cxapi.PROTO_RESPONSE_VERSION`, pinned to
the value the test suite expects). -/
def PROTO_RESPONSE_VERSION : String := "0.19.0"

/-- Modelled from the spec: a missing-context request descriptor — a
provider name plus a string-keyed argument map (§3). -/
structure MissingContext where
  provider : String
  props : List (String × JValue)

/-- Modelled from the spec: an Artifact draft as registered by a producer —
`type`, target `environment`, and the optional `dependencies`, `metadata`,
`properties` and `missing` containers (§3). -/
structure Artifact where
  type : String
  environment : String
  dependencies : List String
  metadata : List (String × JValue)
  properties : List (String × JValue)
  missing : List (String × MissingContext)

/-- Modelled from the spec: a BuildStep draft — a `type` tag and a
string-keyed `parameters` map (§3). -/
structure BuildStep where
  type : String
  parameters : List (String × JValue)

/-- Errors raised by the synthesis session: duplicate registrations, a
second `close()`, or a store error surfaced by a write. -/
inductive SessionError where
  | DuplicateArtifact
  | DuplicateBuildStep
  | AlreadySynthesized
  | StoreFailure (e : StoreError)
deriving DecidableEq

/-- Serialize one missing-context entry, carrying `provider` and `props`
unchanged (§4.4). -/
def renderMissing (m : MissingContext) : JValue :=
  .obj [("provider", .str m.provider), ("props", .obj m.props)]

/-- Modelled from the spec: the manifest-assembly step for one artifact —
emit `type` and `environment` unconditionally and each optional container
only when non-empty, never as an empty container (§4.4). -/
def renderArtifact (a : Artifact) : JValue :=
  .obj ([("type", .str a.type), ("environment", .str a.environment)]
    ++ (if a.dependencies.isEmpty then [] else
          [("dependencies", .arr (a.dependencies.map .str))])
    ++ (if a.metadata.isEmpty then [] else [("metadata", .obj a.metadata)])
    ++ (if a.properties.isEmpty then [] else [("properties", .obj a.properties)])
    ++ (if a.missing.isEmpty then [] else
          [("missing", .obj (a.missing.map (fun e => (e.1, renderMissing e.2))))]))

/-- Modelled from the spec: the manifest document — the fixed schema
`version`, the artifact records in insertion order, and the
runtime-reporting field unless suppressed by configuration (§4.4, §6). -/
def renderManifest (runtimeInfo : Option JValue)
    (artifacts : List (String × Artifact)) : JValue :=
  .obj ([("version", .str PROTO_RESPONSE_VERSION),
         ("artifacts", .obj (artifacts.map (fun e => (e.1, renderArtifact e.2))))]
    ++ (match runtimeInfo with
        | none => []
        | some r => [("runtime", r)]))

/-- Modelled from the spec: the build-steps document — a single `steps`
field mapping each registered id to its `type` and `parameters` (§6). -/
def renderBuildSteps (steps : List (String × BuildStep)) : JValue :=
  .obj [("steps", .obj (steps.map (fun e =>
    (e.1, JValue.obj [("type", .str e.2.type),
                      ("parameters", .obj e.2.parameters)]))))]

/-- Modelled from the spec: the Synthesis Session state — the bound store,
the ordered artifact and build-step drafts, the runtime-reporting info
(absent when suppressed), and the closed flag (§4.3). -/
structure SynthesisSession where
  store : SessionStore
  artifacts : List (String × Artifact)
  buildSteps : List (String × BuildStep)
  runtimeInfo : Option JValue
  closed : Bool

namespace SynthesisSession

/-- A session freshly bound to a store: no drafts, not closed. -/
def create (store : SessionStore) (runtimeInfo : Option JValue := none) :
    SynthesisSession :=
  { store := store, artifacts := [], buildSteps := [], runtimeInfo := runtimeInfo,
    closed := false }

/-- Whether an artifact id was already registered in this session. -/
def hasArtifact (s : SynthesisSession) (id : String) : Bool :=
  s.artifacts.any (fun e => e.1 == id)

/-- Whether a build-step id was already registered in this session. -/
def hasBuildStep (s : SynthesisSession) (id : String) : Bool :=
  s.buildSteps.any (fun e => e.1 == id)

/-- Modelled from the spec: `addArtifact(id, def)` — fails with
`DuplicateArtifact` when the id was already registered, otherwise records
the draft; no filesystem effect (§4.3). -/
def addArtifact (s : SynthesisSession) (id : String) (a : Artifact) :
    Except SessionError SynthesisSession :=
  if s.hasArtifact id then .error .DuplicateArtifact
  else .ok { s with artifacts := s.artifacts ++ [(id, a)] }

/-- Modelled from the spec: `addBuildStep(id, def)` — fails with
`DuplicateBuildStep` when the id was already registered, otherwise records
the draft; no filesystem effect (§4.3). -/
def addBuildStep (s : SynthesisSession) (id : String) (b : BuildStep) :
    Except SessionError SynthesisSession :=
  if s.hasBuildStep id then .error .DuplicateBuildStep
  else .ok { s with buildSteps := s.buildSteps ++ [(id, b)] }

/-- Modelled from the spec: `close()` — fails `AlreadySynthesized` if
already closed; otherwise writes the manifest document to the well-known
path, writes the build-steps document only if any build steps were
recorded, locks the store and marks the session closed (§4.3). -/
def close (s : SynthesisSession) : Except SessionError SynthesisSession :=
  if s.closed then .error .AlreadySynthesized
  else
    match s.store.writeFile MANIFEST_FILE
        (encodeJson (renderManifest s.runtimeInfo s.artifacts)) with
    | .error e => .error (.StoreFailure e)
    | .ok st1 =>
      match (if s.buildSteps.isEmpty then .ok st1 else
              st1.writeFile BUILD_FILE (encodeJson (renderBuildSteps s.buildSteps))) with
      | .error e => .error (.StoreFailure e)
      | .ok st2 => .ok { s with store := st2.lock, closed := true }

/-- Modelled from the spec: the assembly accessor's `writeJson` — encode
the document and delegate to the store (§4.3). -/
def writeJson (s : SynthesisSession) (p : String) (v : JValue) :
    Except SessionError SynthesisSession :=
  match s.store.writeFile p (encodeJson v) with
  | .error e => .error (.StoreFailure e)
  | .ok st => .ok { s with store := st }

end SynthesisSession

/-- Modelled from the spec: the top-level driver (`cdk.App`) as seen by the
tests — the registrations its constructs will perform plus the memoized
result of its `run` entry point (§5). -/
structure App where
  artifacts : List (String × Artifact)
  buildSteps : List (String × BuildStep)
  runtimeInfo : Option JValue
  storeRoot : String
  cachedSession : Option SynthesisSession

/-- One synthesis pass: bind a session to a fresh store, register every
draft, and close. -/
def synthesizeApp (app : App) : Except SessionError SynthesisSession := do
  let s0 := SynthesisSession.create (freshStore app.storeRoot) app.runtimeInfo
  let s1 ← app.artifacts.foldlM (fun s e => s.addArtifact e.1 e.2) s0
  let s2 ← app.buildSteps.foldlM (fun s e => s.addBuildStep e.1 e.2) s1
  s2.close

/-- Modelled from the spec: `App.run()` — memoizes and returns the same
completed session on repeated invocation rather than re-executing
synthesis (§5). -/
def App.run (app : App) : Except SessionError (SynthesisSession × App) :=
  match app.cachedSession with
  | some s => .ok (s, app)
  | none =>
    match synthesizeApp app with
    | .error e => .error e
    | .ok s => .ok (s, { app with cachedSession := some s })

/-!
`StringListParameter` (translated from `packages/@aws-cdk/aws-ssm/lib`
as excerpted in the sources). A CDK string value is either a resolved
literal or an unresolved token (`cdk.unresolved` distinguishes the two);
the JavaScript regular-expression test `new RegExp(pattern).test(value)`
is abstracted as a boolean-valued parameter `test`.
-/

/-- A CDK string value: a resolved literal or an unresolved token. -/
inductive CdkString where
  | lit : String → CdkString
  | token : Nat → CdkString
deriving DecidableEq

/-- `cdk.unresolved` on a string value: true exactly for tokens. -/
def unresolvedStr : CdkString → Bool
  | .lit _ => false
  | .token _ => true

/-- `cdk.unresolved` applied to a whole `string[]` value: a materialized
list of strings is not itself a token. -/
def unresolvedStrList (_ : List CdkString) : Bool := false

/-- JavaScript truthiness of `props.allowedPattern`: only the empty string
is falsy among strings; a token string is non-empty. -/
def truthyStr : CdkString → Bool
  | .lit s => !(s == "")
  | .token _ => true

/-- The comma test `str.indexOf(String.singleton comma) !== -1` on a
string value (a token marker string contains no comma). -/
def strHasComma : CdkString → Bool
  | .lit s => s.toList.contains ','
  | .token _ => false

/-- Errors thrown by the SSM parameter constructors. -/
inductive SsmError where
  | commaInList
  | patternMismatch (value : String) (pattern : String)
deriving DecidableEq

/-- `StringListParameterProps`: the optional `allowedPattern` and the
`stringListValue` elements. -/
structure StringListParameterProps where
  allowedPattern : Option CdkString
  stringListValue : List CdkString

/-- `_assertValidValue(value, allowedPattern)`: returns silently when
either side is an unresolved token, otherwise throws unless the pattern
test accepts the value. -/
def assertValidValue (test : String → String → Bool)
    (value pattern : CdkString) : Except SsmError Unit :=
  if unresolvedStr value || unresolvedStr pattern then .ok ()
  else
    match value, pattern with
    | .lit v, .lit p => if test p v then .ok () else .error (.patternMismatch v p)
    | _, _ => .ok ()

/-- The `forEach` of `_assertValidValue` over the list: the first throwing
element aborts the constructor. -/
def assertAllValid (test : String → String → Bool) (pattern : CdkString) :
    List CdkString → Except SsmError Unit
  | [] => .ok ()
  | v :: vs =>
    match assertValidValue test v pattern with
    | .error e => .error e
    | .ok _ => assertAllValid test pattern vs

/-- The validation performed by the `StringListParameter` constructor: the
comma check over `stringListValue` (`find` of a resolved element containing
a comma), then, when `allowedPattern` is supplied (and truthy) and the list
value is not itself a token, the per-element pattern assertion. -/
def StringListParameter.construct (test : String → String → Bool)
    (props : StringListParameterProps) : Except SsmError Unit :=
  if props.stringListValue.any (fun str => !unresolvedStr str && strHasComma str) then
    .error .commaInList
  else
    match props.allowedPattern with
    | some pattern =>
      if truthyStr pattern && !unresolvedStrList props.stringListValue then
        assertAllValid test pattern props.stringListValue
      else .ok ()
    | none => .ok ()

/-- Whether every `allowedPattern` check of `construct` passes on these
props (vacuously true without a truthy pattern). -/
def patternChecksPass (test : String → String → Bool)
    (props : StringListParameterProps) : Bool :=
  match props.allowedPattern with
  | some pattern =>
    !(truthyStr pattern && !unresolvedStrList props.stringListValue)
      || props.stringListValue.all (fun v =>
            match assertValidValue test v pattern with
            | .ok _ => true
            | .error _ => false)
  | none => true

/-- Substring containment, the semantics of `new RegExp(p).test(v)` for a
pattern `p` free of regular-expression metacharacters. -/
def substrTest (p v : String) : Bool :=
  decide (p.toList.IsInfix v.toList)

deriving instance DecidableEq for Except

/-!
Concrete sample data, mirroring the fixtures of `test.synthesis.ts`, used
to instantiate the universally quantified theorems below.
-/

/-- A minimal artifact draft (cf. the `minimal-artifact` test fixture). -/
def sampleArtifact : Artifact :=
  { type := "aws:cloudformation:stack", environment := "aws://12345/bar",
    dependencies := [], metadata := [],
    properties := [("templateFile", .str "foo.template.json")], missing := [] }

/-- A store holding one previously written file. -/
def sampleStore : SessionStore :=
  { root := "out", files := [("bla.txt", "hello")], dirs := [], locked := false }

/-- A locked store with nothing materialized. -/
def sampleLockedStore : SessionStore :=
  { root := "out", files := [], dirs := [], locked := true }

/-- An open session holding one registered artifact under id `x`. -/
def sampleSession1 : SynthesisSession :=
  { store := freshStore "out", artifacts := [("x", sampleArtifact)],
    buildSteps := [], runtimeInfo := none, closed := false }

/-- The build step of the `addBuildStep` test fixture. -/
def sampleBuildStep : BuildStep :=
  { type := "build-step-type", parameters := [("boom", .num 123)] }

/-- An open session holding one registered build step. -/
def sampleBuildSession : SynthesisSession :=
  { store := freshStore "out", artifacts := [],
    buildSteps := [("step_id", sampleBuildStep)], runtimeInfo := none,
    closed := false }

/-- An empty app that has not been run yet. -/
def sampleRunApp : App :=
  { artifacts := [], buildSteps := [], runtimeInfo := none, storeRoot := "out",
    cachedSession := none }

/-- The session produced by running `sampleRunApp` (equally, by closing an
empty session over a fresh store). -/
def sampleRunSession : SynthesisSession :=
  { store := { root := "out",
               files := [(MANIFEST_FILE, encodeJson (renderManifest none []))],
               dirs := [], locked := true },
    artifacts := [], buildSteps := [], runtimeInfo := none, closed := true }

/-- The app after its first `run`, holding the memoized session. -/
def sampleRunApp1 : App :=
  { sampleRunApp with cachedSession := some sampleRunSession }

/-!
Helper lemmas about the store and session operations, shared by the
claim theorems below.
-/

namespace SessionStore

theorem canWrite_ok (st : SessionStore) (p : String)
    (hv : validPath p = true) (he : st.pathExists p = false)
    (hl : st.locked = false) : st.canWrite p = .ok () := by
  simp [canWrite, hv, he, hl]

theorem writeFile_ok (st : SessionStore) (p b : String)
    (hv : validPath p = true) (he : st.pathExists p = false)
    (hl : st.locked = false) :
    st.writeFile p b = .ok { st with files := st.files ++ [(p, b)] } := by
  simp [writeFile, canWrite_ok st p hv he hl]

theorem writeFile_ok_inv {st st' : SessionStore} {p b : String}
    (h : st.writeFile p b = .ok st') :
    st' = { st with files := st.files ++ [(p, b)] } ∧ st.pathExists p = false := by
  unfold writeFile canWrite at h
  by_cases hv : validPath p = true
  · by_cases he : st.pathExists p = true
    · simp [hv, he] at h
    · by_cases hl : st.locked = true
      · simp [hv, he, hl] at h
      · simp only [Bool.not_eq_true] at he hl
        simp [hv, he, hl] at h
        refine ⟨?_, he⟩
        rw [hl]
        exact h.symm
  · simp [Bool.not_eq_true] at hv
    simp [hv] at h

theorem writeFile_locked {st st' : SessionStore} {p b : String}
    (h : st.writeFile p b = .ok st') : st'.locked = st.locked := by
  rw [(writeFile_ok_inv h).1]

theorem pathExists_writeFile {st st' : SessionStore} {q b : String}
    (h : st.writeFile q b = .ok st') (p : String) :
    st'.pathExists p = (st.pathExists p || (q == p)) := by
  rw [(writeFile_ok_inv h).1]
  simp only [pathExists, List.any_append, List.any_cons, List.any_nil, Bool.or_false]
  cases st.files.any (fun f => f.1 == p) <;> cases (q == p) <;>
    cases st.dirs.contains p <;> rfl

theorem readFile_writeFile_self {st st' : SessionStore} {p b : String}
    (h : st.writeFile p b = .ok st') : st'.readFile p = .ok b := by
  obtain ⟨hst, he⟩ := writeFile_ok_inv h
  have hnone : st.files.find? (fun f => f.1 == p) = none := by
    rw [List.find?_eq_none]
    intro x hx hpx
    have : st.files.any (fun f => f.1 == p) = true := List.any_eq_true.mpr ⟨x, hx, hpx⟩
    simp [pathExists, this] at he
  rw [hst]
  simp [readFile, List.find?_append, hnone, List.find?]

theorem readFile_writeFile_ne {st st' : SessionStore} {q b : String}
    (h : st.writeFile q b = .ok st') (p : String) (hne : (q == p) = false) :
    st'.readFile p = st.readFile p := by
  rw [(writeFile_ok_inv h).1]
  simp [readFile, List.find?_append, List.find?, hne]

theorem readFile_lock (st : SessionStore) (p : String) :
    (st.lock).readFile p = st.readFile p := rfl

theorem pathExists_lock (st : SessionStore) (p : String) :
    (st.lock).pathExists p = st.pathExists p := rfl

theorem pathExists_of_readFile_ok {st : SessionStore} {p c : String}
    (h : st.readFile p = .ok c) : st.pathExists p = true := by
  unfold readFile at h
  cases hf : st.files.find? (fun f => f.1 == p) with
  | none => rw [hf] at h; exact absurd h (by simp)
  | some f =>
    have hmem := List.mem_of_find?_eq_some hf
    have hpf := List.find?_some hf
    have hany : st.files.any (fun f => f.1 == p) = true :=
      List.any_eq_true.mpr ⟨f, hmem, hpf⟩
    simp [pathExists, hany]

end SessionStore

theorem validPath_manifest : validPath MANIFEST_FILE = true := rfl

theorem validPath_build : validPath BUILD_FILE = true := rfl

theorem build_beq_manifest : (BUILD_FILE == MANIFEST_FILE) = false := rfl

theorem manifest_beq_build : (MANIFEST_FILE == BUILD_FILE) = false := rfl

namespace SynthesisSession

theorem close_of_closed {s : SynthesisSession} (h : s.closed = true) :
    s.close = .error .AlreadySynthesized := by
  simp [close, h]

theorem close_ok_inv {s s' : SynthesisSession} (h : s.close = .ok s') :
    s.closed = false ∧ s'.closed = true ∧ s'.artifacts = s.artifacts ∧
    s'.buildSteps = s.buildSteps ∧ s'.runtimeInfo = s.runtimeInfo ∧
    s'.store.locked = true ∧
    s'.store.readFile MANIFEST_FILE =
      .ok (encodeJson (renderManifest s.runtimeInfo s.artifacts)) := by
  unfold close at h
  by_cases hc : s.closed = true
  · simp [hc] at h
  · simp only [Bool.not_eq_true] at hc
    simp only [hc, Bool.false_eq_true, if_false] at h
    cases hw : s.store.writeFile MANIFEST_FILE
        (encodeJson (renderManifest s.runtimeInfo s.artifacts)) with
    | error e => rw [hw] at h; exact absurd h (by simp)
    | ok st1 =>
      rw [hw] at h
      by_cases hbs : s.buildSteps.isEmpty = true
      · simp only [hbs, if_true] at h
        obtain rfl : { s with store := st1.lock, closed := true } = s' := by
          exact Except.ok.inj h
        refine ⟨hc, rfl, rfl, rfl, rfl, rfl, ?_⟩
        rw [SessionStore.readFile_lock]
        exact SessionStore.readFile_writeFile_self hw
      · simp only [hbs, Bool.false_eq_true, if_false] at h
        cases hw2 : st1.writeFile BUILD_FILE
            (encodeJson (renderBuildSteps s.buildSteps)) with
        | error e => rw [hw2] at h; exact absurd h (by simp)
        | ok st2 =>
          rw [hw2] at h
          obtain rfl : { s with store := st2.lock, closed := true } = s' := by
            exact Except.ok.inj h
          refine ⟨hc, rfl, rfl, rfl, rfl, rfl, ?_⟩
          rw [SessionStore.readFile_lock,
            SessionStore.readFile_writeFile_ne hw2 MANIFEST_FILE build_beq_manifest]
          exact SessionStore.readFile_writeFile_self hw

theorem addArtifact_dup {s : SynthesisSession} {id : String} {a : Artifact}
    (h : s.hasArtifact id = true) : s.addArtifact id a = .error .DuplicateArtifact := by
  simp [addArtifact, h]

theorem addArtifact_fresh {s : SynthesisSession} {id : String} {a : Artifact}
    (h : s.hasArtifact id = false) :
    s.addArtifact id a = .ok { s with artifacts := s.artifacts ++ [(id, a)] } := by
  simp [addArtifact, h]

end SynthesisSession

theorem find?_renderArtifact_append (arts : List (String × Artifact))
    (id : String) (a : Artifact) (h : arts.any (fun e => e.1 == id) = false) :
    ((arts ++ [(id, a)]).map (fun e => (e.1, renderArtifact e.2))).find?
      (fun e => e.1 == id) = some (id, renderArtifact a) := by
  induction arts with
  | nil =>
    simp only [List.nil_append, List.map_cons, List.map_nil]
    rw [List.find?_cons_of_pos _ (by simp)]
  | cons x xs ih =>
    simp only [List.any_cons, Bool.or_eq_false_iff] at h
    simp only [List.cons_append, List.map_cons]
    rw [List.find?_cons_of_neg _ (by simp [h.1])]
    exact ih h.2

theorem close_ok_of {s : SynthesisSession} (hc : s.closed = false)
    (hl : s.store.locked = false)
    (hm : s.store.pathExists MANIFEST_FILE = false)
    (hb : s.store.pathExists BUILD_FILE = false) :
    ∃ st2 : SessionStore, s.close = .ok { s with store := st2.lock, closed := true } ∧
      st2.readFile MANIFEST_FILE =
        .ok (encodeJson (renderManifest s.runtimeInfo s.artifacts)) ∧
      st2.pathExists BUILD_FILE = !s.buildSteps.isEmpty ∧
      (s.buildSteps.isEmpty = false →
        st2.readFile BUILD_FILE = .ok (encodeJson (renderBuildSteps s.buildSteps))) := by
  have hw1 := SessionStore.writeFile_ok s.store MANIFEST_FILE
    (encodeJson (renderManifest s.runtimeInfo s.artifacts)) validPath_manifest hm hl
  by_cases hbs : s.buildSteps.isEmpty = true
  · refine ⟨_, ?_, SessionStore.readFile_writeFile_self hw1, ?_, ?_⟩
    · unfold SynthesisSession.close
      rw [hw1]
      simp [hc, hbs]
    · rw [SessionStore.pathExists_writeFile hw1 BUILD_FILE, hb, manifest_beq_build, hbs]
      rfl
    · intro hfalse; rw [hbs] at hfalse; exact absurd hfalse (by simp)
  · simp only [Bool.not_eq_true] at hbs
    have hpe : ({ s.store with files := s.store.files ++
        [(MANIFEST_FILE, encodeJson (renderManifest s.runtimeInfo s.artifacts))] :
          SessionStore }).pathExists BUILD_FILE = false := by
      rw [SessionStore.pathExists_writeFile hw1 BUILD_FILE, hb, manifest_beq_build]
      rfl
    have hlk : ({ s.store with files := s.store.files ++
        [(MANIFEST_FILE, encodeJson (renderManifest s.runtimeInfo s.artifacts))] :
          SessionStore }).locked = false := by
      rw [SessionStore.writeFile_locked hw1]; exact hl
    have hw2 := SessionStore.writeFile_ok _ BUILD_FILE
      (encodeJson (renderBuildSteps s.buildSteps)) validPath_build hpe hlk
    refine ⟨_, ?_, ?_, ?_, fun _ => SessionStore.readFile_writeFile_self hw2⟩
    · unfold SynthesisSession.close
      rw [hw1]
      simp only [hc, Bool.false_eq_true, if_false, hbs]
      rw [hw2]
    · rw [SessionStore.readFile_writeFile_ne hw2 MANIFEST_FILE build_beq_manifest]
      exact SessionStore.readFile_writeFile_self hw1
    · rw [SessionStore.pathExists_writeFile hw2 BUILD_FILE, hbs]
      simp

theorem assertValidValue_cases (test : String → String → Bool)
    (v pat : CdkString) :
    assertValidValue test v pat = .ok () ∨
    ∃ a b, assertValidValue test v pat = .error (.patternMismatch a b) := by
  cases v with
  | token i => left; rfl
  | lit sv =>
    cases pat with
    | token j => left; rfl
    | lit sp =>
      by_cases ht : test sp sv = true
      · left; simp [assertValidValue, unresolvedStr, ht]
      · right
        refine ⟨sv, sp, ?_⟩
        simp only [Bool.not_eq_true] at ht
        simp [assertValidValue, unresolvedStr, ht]

theorem assertAllValid_ne_comma (test : String → String → Bool)
    (pat : CdkString) (vs : List CdkString) :
    assertAllValid test pat vs ≠ .error .commaInList := by
  induction vs with
  | nil => simp [assertAllValid]
  | cons v vs ih =>
    unfold assertAllValid
    rcases assertValidValue_cases test v pat with h | ⟨a, b, h⟩
    · rw [h]; exact ih
    · rw [h]; simp

theorem assertAllValid_ok (test : String → String → Bool) (pat : CdkString)
    (vs : List CdkString)
    (h : vs.all (fun v => match assertValidValue test v pat with
          | .ok _ => true | .error _ => false) = true) :
    assertAllValid test pat vs = .ok () := by
  induction vs with
  | nil => rfl
  | cons v vs ih =>
    simp only [List.all_cons, Bool.and_eq_true] at h
    obtain ⟨h1, h2⟩ := h
    unfold assertAllValid
    cases hv : assertValidValue test v pat with
    | ok u => exact ih h2
    | error e => rw [hv] at h1; exact absurd h1 (by simp)

/-!
Claim theorems. One theorem per claim, with concrete-instance witnesses
for the theorems that carry hypotheses, and closed counterexamples for the
corrected claims.
-/

/-- C1: for every artifact registered with only `type`, `environment` and a
non-empty `properties` map (empty `dependencies`, `metadata` and `missing`),
the manifest record produced by `close()` is exactly the object with only
those three keys; the optional keys are absent, never present as empty
containers. -/
theorem c1_minimal_artifact_record (root id : String) (a : Artifact)
    (hdeps : a.dependencies = []) (hmeta : a.metadata = [])
    (hmiss : a.missing = []) (hprops : a.properties.isEmpty = false) :
    renderArtifact a = JValue.obj
      [("type", JValue.str a.type), ("environment", JValue.str a.environment),
       ("properties", JValue.obj a.properties)] ∧
    ∃ s1 s2 : SynthesisSession,
      (SynthesisSession.create (freshStore root)).addArtifact id a = .ok s1 ∧
      s1.close = .ok s2 ∧
      s2.store.readFile MANIFEST_FILE = .ok (encodeJson (JValue.obj
        [("version", JValue.str PROTO_RESPONSE_VERSION),
         ("artifacts", JValue.obj [(id, JValue.obj
           [("type", JValue.str a.type),
            ("environment", JValue.str a.environment),
            ("properties", JValue.obj a.properties)])])])) := by
  have hra : renderArtifact a = JValue.obj
      [("type", JValue.str a.type), ("environment", JValue.str a.environment),
       ("properties", JValue.obj a.properties)] := by
    simp [renderArtifact, hdeps, hmeta, hmiss, hprops]
  refine ⟨hra, ?_⟩
  obtain ⟨st2, hclose, hread, _, _⟩ := close_ok_of
    (s := { SynthesisSession.create (freshStore root) with artifacts := [(id, a)] })
    rfl rfl rfl rfl
  refine ⟨_, _, SynthesisSession.addArtifact_fresh rfl, hclose, ?_⟩
  rw [SessionStore.readFile_lock, hread]
  have hrm : renderManifest none [(id, a)] = JValue.obj
      [("version", JValue.str PROTO_RESPONSE_VERSION),
       ("artifacts", JValue.obj [(id, JValue.obj
         [("type", JValue.str a.type),
          ("environment", JValue.str a.environment),
          ("properties", JValue.obj a.properties)])])] := by
    simp [renderManifest, hra]
  exact congrArg (fun v => Except.ok (ε := StoreError) (encodeJson v)) hrm

/-- C1 witness: the minimal-artifact fixture instantiates the theorem. -/
theorem c1_minimal_artifact_record_witness :
    sampleArtifact.properties.isEmpty = false ∧
    (renderArtifact sampleArtifact = JValue.obj
      [("type", JValue.str sampleArtifact.type),
       ("environment", JValue.str sampleArtifact.environment),
       ("properties", JValue.obj sampleArtifact.properties)] ∧
    ∃ s1 s2 : SynthesisSession,
      (SynthesisSession.create (freshStore "out")).addArtifact "a" sampleArtifact = .ok s1 ∧
      s1.close = .ok s2 ∧
      s2.store.readFile MANIFEST_FILE = .ok (encodeJson (JValue.obj
        [("version", JValue.str PROTO_RESPONSE_VERSION),
         ("artifacts", JValue.obj [("a", JValue.obj
           [("type", JValue.str sampleArtifact.type),
            ("environment", JValue.str sampleArtifact.environment),
            ("properties", JValue.obj sampleArtifact.properties)])])]))) :=
  ⟨rfl, c1_minimal_artifact_record "out" "a" sampleArtifact rfl rfl rfl rfl⟩

/-- C2: writing a valid path that was previously written fails with
`AlreadyExists`, and the previously written content is unchanged by the
failed call. -/
theorem c2_write_existing_fails (st : SessionStore) (p c b : String)
    (hv : validPath p = true) (hr : st.readFile p = .ok c) :
    st.writeFile p b = .error .AlreadyExists ∧ st.readFile p = .ok c := by
  have he := SessionStore.pathExists_of_readFile_ok hr
  refine ⟨?_, hr⟩
  unfold SessionStore.writeFile SessionStore.canWrite
  simp [hv, he]

/-- C2 witness: overwriting `bla.txt` on the sample store fails and leaves
the original bytes readable. -/
theorem c2_write_existing_fails_witness :
    validPath "bla.txt" = true ∧ sampleStore.readFile "bla.txt" = .ok "hello" ∧
    (sampleStore.writeFile "bla.txt" "override" = .error .AlreadyExists ∧
      sampleStore.readFile "bla.txt" = .ok "hello") :=
  ⟨rfl, rfl, c2_write_existing_fails sampleStore "bla.txt" "hello" "override" rfl rfl⟩

/-- C3 counterexample: on a locked store whose path was already written,
`writeFile` fails with `AlreadyExists`, not `Locked` — the existence check
precedes the lock check. -/
theorem c3_locked_counterexample :
    SessionStore.writeFile
      { root := "out", files := [("a.txt", "x")], dirs := [], locked := true }
      "a.txt" "y" = .error .AlreadyExists ∧
    ¬ SessionStore.writeFile
      { root := "out", files := [("a.txt", "x")], dirs := [], locked := true }
      "a.txt" "y" = .error .Locked := by
  exact ⟨rfl, by decide⟩

/-- C3 (amended): once `lock()` has been called, any subsequent
`writeFile(p, ...)` or `mkdir(p)` on a valid path `p` that was not
previously materialized fails with `Locked`; for previously materialized
paths the failure is `AlreadyExists` instead. -/
theorem c3_locked_rejects_fresh_paths (st : SessionStore) (p b : String)
    (hlock : st.locked = true) (hv : validPath p = true)
    (he : st.pathExists p = false) :
    st.writeFile p b = .error .Locked ∧ st.mkdir p = .error .Locked := by
  unfold SessionStore.writeFile SessionStore.mkdir SessionStore.canWrite
  simp [hv, he, hlock]

/-- C3 witness: a locked store rejects a never-written path with `Locked`. -/
theorem c3_locked_rejects_fresh_paths_witness :
    sampleLockedStore.locked = true ∧ validPath "another.txt" = true ∧
    sampleLockedStore.pathExists "another.txt" = false ∧
    (sampleLockedStore.writeFile "another.txt" "v" = .error .Locked ∧
      sampleLockedStore.mkdir "another.txt" = .error .Locked) :=
  ⟨rfl, rfl, rfl,
    c3_locked_rejects_fresh_paths sampleLockedStore "another.txt" "v" rfl rfl rfl⟩

/-- C4: after a completed `close()`, a second `close()` fails with
`AlreadySynthesized`, and the manifest file written by the first call is
still readable, unaltered. -/
theorem c4_close_twice (s s' : SynthesisSession) (h : s.close = .ok s') :
    s'.close = .error .AlreadySynthesized ∧
    s'.store.readFile MANIFEST_FILE =
      .ok (encodeJson (renderManifest s.runtimeInfo s.artifacts)) := by
  obtain ⟨_, hc', _, _, _, _, hread⟩ := SynthesisSession.close_ok_inv h
  exact ⟨SynthesisSession.close_of_closed hc', hread⟩

/-- C4 witness: closing an empty session once and then again. -/
theorem c4_close_twice_witness :
    (SynthesisSession.create (freshStore "out")).close = .ok sampleRunSession ∧
    (sampleRunSession.close = .error .AlreadySynthesized ∧
      sampleRunSession.store.readFile MANIFEST_FILE =
        .ok (encodeJson (renderManifest none []))) :=
  ⟨rfl, c4_close_twice (SynthesisSession.create (freshStore "out")) sampleRunSession rfl⟩

/-- C5: `addArtifact` with a previously used id fails with
`DuplicateArtifact`; with a fresh id it succeeds, and the registered
artifact appears under that id in the manifest produced by `close()`. -/
theorem c5_addArtifact_unique (s : SynthesisSession) (id : String) (a : Artifact) :
    (s.hasArtifact id = true → s.addArtifact id a = .error .DuplicateArtifact) ∧
    (s.hasArtifact id = false →
      ∃ s1 : SynthesisSession, s.addArtifact id a = .ok s1 ∧
        ∀ s2 : SynthesisSession, s1.close = .ok s2 →
          s2.store.readFile MANIFEST_FILE =
            .ok (encodeJson (renderManifest s.runtimeInfo s1.artifacts)) ∧
          (s1.artifacts.map (fun e => (e.1, renderArtifact e.2))).find?
            (fun e => e.1 == id) = some (id, renderArtifact a)) := by
  constructor
  · exact fun h => SynthesisSession.addArtifact_dup h
  · intro h
    refine ⟨_, SynthesisSession.addArtifact_fresh h, ?_⟩
    intro s2 hclose
    obtain ⟨_, _, _, _, _, _, hread⟩ := SynthesisSession.close_ok_inv hclose
    exact ⟨hread, find?_renderArtifact_append s.artifacts id a h⟩

/-- C5 witness: re-registering `x` on the sample session fails; a fresh id
succeeds and its record is found in the assembled artifacts map. -/
theorem c5_addArtifact_unique_witness :
    sampleSession1.addArtifact "x" sampleArtifact = .error .DuplicateArtifact ∧
    (∃ s1 : SynthesisSession,
      sampleSession1.addArtifact "minimal" sampleArtifact = .ok s1 ∧
      ∀ s2 : SynthesisSession, s1.close = .ok s2 →
        s2.store.readFile MANIFEST_FILE =
          .ok (encodeJson (renderManifest sampleSession1.runtimeInfo s1.artifacts)) ∧
        (s1.artifacts.map (fun e => (e.1, renderArtifact e.2))).find?
          (fun e => e.1 == "minimal") = some ("minimal", renderArtifact sampleArtifact)) :=
  ⟨(c5_addArtifact_unique sampleSession1 "x" sampleArtifact).1 rfl,
   (c5_addArtifact_unique sampleSession1 "minimal" sampleArtifact).2 rfl⟩

/-- C6: `close()` writes the build-steps document iff at least one build
step was registered, and when written it holds exactly the registered
steps keyed by their ids; with no steps, no such document exists after
`close()`. -/
theorem c6_build_steps_document (s : SynthesisSession)
    (hc : s.closed = false) (hl : s.store.locked = false)
    (hm : s.store.pathExists MANIFEST_FILE = false)
    (hb : s.store.pathExists BUILD_FILE = false) :
    ∃ s' : SynthesisSession, s.close = .ok s' ∧
      s'.store.pathExists BUILD_FILE = !s.buildSteps.isEmpty ∧
      (s.buildSteps.isEmpty = false →
        s'.store.readFile BUILD_FILE =
          .ok (encodeJson (renderBuildSteps s.buildSteps))) := by
  obtain ⟨st2, hclose, _, hpe, hrb⟩ := close_ok_of hc hl hm hb
  refine ⟨_, hclose, ?_, ?_⟩
  · rw [SessionStore.pathExists_lock]; exact hpe
  · intro h; rw [SessionStore.readFile_lock]; exact hrb h

/-- C6 witness: a session with one build step writes `build.json` holding
exactly that step. -/
theorem c6_build_steps_document_witness :
    sampleBuildSession.closed = false ∧ sampleBuildSession.store.locked = false ∧
    sampleBuildSession.store.pathExists MANIFEST_FILE = false ∧
    sampleBuildSession.store.pathExists BUILD_FILE = false ∧
    (∃ s' : SynthesisSession, sampleBuildSession.close = .ok s' ∧
      s'.store.pathExists BUILD_FILE = !sampleBuildSession.buildSteps.isEmpty ∧
      (sampleBuildSession.buildSteps.isEmpty = false →
        s'.store.readFile BUILD_FILE =
          .ok (encodeJson (renderBuildSteps sampleBuildSession.buildSteps)))) :=
  ⟨rfl, rfl, rfl, rfl, c6_build_steps_document sampleBuildSession rfl rfl rfl rfl⟩

/-- C7: on an unlocked store, writing a valid, not previously written path
and then reading it back returns exactly the written bytes. -/
theorem c7_write_read_roundtrip (st : SessionStore) (p b : String)
    (hv : validPath p = true) (hl : st.locked = false)
    (he : st.pathExists p = false) :
    ∃ st' : SessionStore, st.writeFile p b = .ok st' ∧ st'.readFile p = .ok b :=
  ⟨_, SessionStore.writeFile_ok st p b hv he hl,
    SessionStore.readFile_writeFile_self (SessionStore.writeFile_ok st p b hv he hl)⟩

/-- C7 witness: `hey.txt` round-trips on a fresh store. -/
theorem c7_write_read_roundtrip_witness :
    validPath "hey.txt" = true ∧ (freshStore "out").locked = false ∧
    (freshStore "out").pathExists "hey.txt" = false ∧
    (∃ st' : SessionStore, (freshStore "out").writeFile "hey.txt" "1234" = .ok st' ∧
      st'.readFile "hey.txt" = .ok "1234") :=
  ⟨rfl, rfl, rfl, c7_write_read_roundtrip (freshStore "out") "hey.txt" "1234" rfl rfl rfl⟩

/-- C8: the driver's `run` entry point memoizes: when a first `run()`
returns a session and an updated app, running that app again returns the
very same pair without re-executing synthesis. -/
theorem c8_run_memoized (app : App) (s1 : SynthesisSession) (app1 : App)
    (h : app.run = .ok (s1, app1)) : app1.run = .ok (s1, app1) := by
  unfold App.run at h ⊢
  cases hc : app.cachedSession with
  | some s =>
    rw [hc] at h
    obtain ⟨rfl, rfl⟩ : s = s1 ∧ app = app1 := by
      have := Except.ok.inj h
      exact ⟨congrArg Prod.fst this, congrArg Prod.snd this⟩
    rw [hc]
  | none =>
    rw [hc] at h
    cases hs : synthesizeApp app with
    | error e => rw [hs] at h; exact absurd h (by simp)
    | ok s =>
      rw [hs] at h
      obtain ⟨rfl, rfl⟩ : s = s1 ∧ { app with cachedSession := some s } = app1 := by
        have := Except.ok.inj h
        exact ⟨congrArg Prod.fst this, congrArg Prod.snd this⟩
      rfl

/-- C8 witness: running the empty sample app twice returns the same
completed session both times. -/
theorem c8_run_memoized_witness :
    sampleRunApp.run = .ok (sampleRunSession, sampleRunApp1) ∧
    sampleRunApp1.run = .ok (sampleRunSession, sampleRunApp1) :=
  ⟨rfl, c8_run_memoized sampleRunApp sampleRunSession sampleRunApp1 rfl⟩

/-- C9: `lock()` is idempotent — locking a locked store leaves it in the
same state as locking it once, and (being a total operation in the model)
the second call raises no error. -/
theorem c9_lock_idempotent (st : SessionStore) : (st.lock).lock = st.lock := rfl

/-- C10 counterexample: with `allowedPattern` `x` (substring semantics) and
the comma-free resolved value `a`, construction throws a pattern-mismatch
error even though no element contains a comma — so "throws an error iff
some resolved element contains a comma" fails as stated. -/
theorem c10_comma_counterexample :
    StringListParameter.construct substrTest
      { allowedPattern := some (.lit "x"), stringListValue := [.lit "a"] }
      = .error (.patternMismatch "a" "x") ∧
    ([CdkString.lit "a"].any (fun str => !unresolvedStr str && strHasComma str)) = false :=
  ⟨rfl, rfl⟩

/-- C10 (amended): construction throws the comma error iff some element of
`stringListValue` is a resolved string containing a comma; and when every
element is a token or comma-free and no `allowedPattern` check fails,
construction succeeds. -/
theorem c10_string_list_comma (test : String → String → Bool)
    (props : StringListParameterProps) :
    (props.stringListValue.any (fun str => !unresolvedStr str && strHasComma str) = true →
      StringListParameter.construct test props = .error .commaInList) ∧
    (StringListParameter.construct test props = .error .commaInList →
      props.stringListValue.any (fun str => !unresolvedStr str && strHasComma str) = true) ∧
    (props.stringListValue.any (fun str => !unresolvedStr str && strHasComma str) = false →
      patternChecksPass test props = true →
      StringListParameter.construct test props = .ok ()) := by
  obtain ⟨ap, slv⟩ := props
  refine ⟨?_, ?_, ?_⟩
  · intro h
    simp [StringListParameter.construct, h]
  · intro h
    by_cases hany : slv.any (fun str => !unresolvedStr str && strHasComma str) = true
    · exact hany
    · exfalso
      simp only [Bool.not_eq_true] at hany
      simp only [StringListParameter.construct, hany, Bool.false_eq_true,
        if_false] at h
      cases ap with
      | none => exact absurd h (by simp)
      | some pattern =>
        simp only at h
        by_cases hcond : (truthyStr pattern && !unresolvedStrList slv) = true
        · rw [if_pos hcond] at h
          exact assertAllValid_ne_comma test pattern slv h
        · rw [if_neg hcond] at h
          exact absurd h (by simp)
  · intro hany hpass
    simp only [StringListParameter.construct, hany, Bool.false_eq_true, if_false]
    cases ap with
    | none => rfl
    | some pattern =>
      simp only
      by_cases hcond : (truthyStr pattern && !unresolvedStrList slv) = true
      · rw [if_pos hcond]
        simp only [patternChecksPass, hcond, Bool.not_true, Bool.false_or] at hpass
        exact assertAllValid_ok test pattern slv hpass
      · rw [if_neg hcond]

/-- C10 witness: a resolved element containing a comma throws the comma
error; comma-free resolved and token elements with no pattern succeed. -/
theorem c10_string_list_comma_witness :
    StringListParameter.construct substrTest
      { allowedPattern := none, stringListValue := [CdkString.lit "a,b"] }
      = .error .commaInList ∧
    StringListParameter.construct substrTest
      { allowedPattern := none,
        stringListValue := [CdkString.lit "a", CdkString.token 0] } = .ok () :=
  ⟨(c10_string_list_comma substrTest
      { allowedPattern := none, stringListValue := [CdkString.lit "a,b"] }).1 rfl,
   (c10_string_list_comma substrTest
      { allowedPattern := none,
        stringListValue := [CdkString.lit "a", CdkString.token 0] }).2.2 rfl rfl⟩
